/-
Verification of the RenderScope renderer execution framework.

This file gives a shallow embedding, in Lean 4, of the core of the
`renderscope` Python package:

* `core/runner.py` — the subprocess execution engine (`run_subprocess`),
  the background memory monitor (`_MemoryMonitor`), the in-process timing
  wrapper (`InProcessTimer`), and the result builder
  (`RenderResultBuilder`);
* `core/registry.py` — the adapter registry (`AdapterRegistry`) with its
  memoized detection snapshot;
* `adapters/exceptions.py` — the adapter-facing error taxonomy;
* `adapters/pbrt.py`, `adapters/mitsuba.py`, `adapters/luxcore.py` — the
  render lifecycle of three representative concrete adapters, plus the
  timeout-resolution expression shared by the subprocess-backed adapters
  and Filament's variant of it.

External effects (the filesystem, the spawned process, the clock, the
sampling thread) are modelled by explicit oracle records (`ProcSpec`,
`InProcessEnv`, per-adapter `...Env` records) holding the values those
effects would produce; each embedded function consumes such a record and
additionally returns the ordered list of observable events it performed,
so that ordering claims (monitor stop before result read, directory
creation before dispatch, ...) become statements about concrete traces.
-/

import Mathlib

set_option autoImplicit false

namespace Renderscope

/-! ## Error taxonomy — `adapters/exceptions.py` and built-in exceptions

`RendererNotFoundError`, `RenderError` and `SceneFormatError` are the
three adapter-facing exception classes.  `fileNotFound` models Python's
built-in `FileNotFoundError`, which `run_subprocess` re-raises when the
command binary cannot be spawned; it is *not* part of the adapter-facing
taxonomy. -/

inductive PyError where
  | fileNotFound (msg : String)
  | rendererNotFound (rendererName : String) (installHint : String)
  | renderError (rendererName : String) (reason : String)
      (exitCode : Option Int) (stderrOutput : Option String)
  | sceneFormat (rendererName : String) (scenePath : String)
      (sceneFormat : String) (supportedFormats : List String)
deriving Repr, DecidableEq

/-- Membership in the adapter-facing taxonomy of `adapters/exceptions.py`:
everything except the built-in `FileNotFoundError`. -/
def PyError.inTaxonomy : PyError → Bool
  | .fileNotFound _ => false
  | .rendererNotFound _ _ => true
  | .renderError _ _ _ _ => true
  | .sceneFormat _ _ _ _ => true

def PyError.isFileNotFound : PyError → Bool
  | .fileNotFound _ => true
  | _ => false

def PyError.isRenderError : PyError → Bool
  | .renderError _ _ _ _ => true
  | _ => false

/-! ## Memory monitor — `_MemoryMonitor` in `core/runner.py`

The monitor thread keeps `peak_mb`, initialised to `0.0`, and on each
completed poll replaces it with the sampled total RSS (in MB) when that
sample is strictly larger.  The poll loop first checks the stop event, so
a monitor stopped before its first poll has taken no sample at all and
reports `0.0`.  `memSamples` below is the (possibly empty) list of the
values sampled by the polls that actually completed, in order. -/

def monitorPeak (memSamples : List ℚ) : ℚ :=
  memSamples.foldl (fun peak mb => if mb > peak then mb else peak) 0

/-! ## Subprocess execution — `run_subprocess` in `core/runner.py` -/

/-- Result of a monitored subprocess execution (`SubprocessResult`,
declared `@dataclass(frozen=True)` in `core/runner.py`). -/
structure SubprocessResult where
  exit_code : Int
  stdout : String
  stderr : String
  elapsed_seconds : ℚ
  peak_memory_mb : ℚ
deriving Repr, DecidableEq

/-- Oracle describing the behaviour of one spawned process: whether
`subprocess.Popen` finds the binary, the exit code and the decoded
output the process would produce, its wall-clock running time, the extra
time spent killing/draining it on the timeout path, and the RSS values
the memory monitor samples while it runs. -/
structure ProcSpec where
  found : Bool
  exitCode : Int
  stdoutText : String
  stderrText : String
  duration : ℚ
  killDelay : ℚ
  memSamples : List ℚ
deriving Repr, DecidableEq

/-- Observable events of one `run_subprocess` call, in program order. -/
inductive RunEvent where
  | spawn
  | monitorStart
  | killProcess
  | monitorStop
  | returnResult
  | raiseTimeout
  | raiseNotFound
deriving Repr, DecidableEq

/-- Shallow embedding of `run_subprocess` (`core/runner.py`, lines
129–203).  A missing binary re-raises `FileNotFoundError`; otherwise the
monitor is started, `process.communicate(timeout=...)` either returns the
captured output or raises `TimeoutExpired` (when the process runs longer
than the limit), and the `except`/`finally` structure of the source
dictates the event order: on timeout the process is killed, drained, the
monitor stopped in the `except` branch and stopped again by the
`finally` block before `RenderError` propagates; on completion the
`finally` block stops the monitor before the result is assembled. -/
def run_subprocess (cmd : List String) (timeout : Option ℚ) (p : ProcSpec) :
    Except PyError SubprocessResult × List RunEvent :=
  if p.found = false then
    (Except.error (PyError.fileNotFound ("Command not found: " ++ cmd.headD "")),
     [RunEvent.raiseNotFound])
  else
    let timedOut : Bool :=
      match timeout with
      | none => false
      | some t => decide (t < p.duration)
    if timedOut then
      let elapsed := (timeout.getD 0) + p.killDelay
      (Except.error (PyError.renderError (cmd.headD "")
          ("Process timed out after " ++ toString elapsed ++ "s") (some (-1)) none),
       [RunEvent.spawn, RunEvent.monitorStart, RunEvent.killProcess,
        RunEvent.monitorStop, RunEvent.monitorStop, RunEvent.raiseTimeout])
    else
      (Except.ok
        { exit_code := p.exitCode
          stdout := p.stdoutText
          stderr := p.stderrText
          elapsed_seconds := p.duration
          peak_memory_mb := monitorPeak p.memSamples },
       [RunEvent.spawn, RunEvent.monitorStart, RunEvent.monitorStop,
        RunEvent.returnResult])

/-! ## Trace helpers -/

/-- `firstPrecedes l a b` holds (as a boolean) when every occurrence of
`b` in `l` is preceded by an earlier occurrence of `a`: walking the list,
we must meet an `a` before meeting any `b`. -/
def firstPrecedes {α : Type} [DecidableEq α] : List α → α → α → Bool
  | [], _, _ => true
  | x :: rest, a, b =>
    if x = b then false
    else if x = a then true
    else firstPrecedes rest a b

/-! ## In-process timer — `InProcessTimer` in `core/runner.py` -/

/-- Result record of an in-process timed execution
(`InProcessTimerResult`, a plain mutable dataclass populated by the
timer itself). -/
structure InProcessTimerResult where
  elapsed_seconds : ℚ := 0
  peak_memory_mb : ℚ := 0
  baseline_memory_mb : ℚ := 0
deriving Repr, DecidableEq

/-- Oracle for one bracketed region: the process RSS sampled at entry
(the baseline), the wall-clock duration of the region, and the RSS
values the monitor thread manages to sample before it is stopped (empty
when the stop signal arrives before its first poll). -/
structure InProcessEnv where
  baseline : ℚ
  duration : ℚ
  memSamples : List ℚ
deriving Repr, DecidableEq

/-- How the bracketed computation inside the `with` block terminates. -/
inductive BodyOutcome where
  | normal
  | raised
deriving Repr, DecidableEq

/-- Observable events of one `with InProcessTimer(): ...` execution. -/
inductive TimerEvent where
  | monitorStart
  | bodyRun
  | bodyRaise
  | monitorStop
  | readResult
deriving Repr, DecidableEq

/-- Shallow embedding of a `with InProcessTimer() as timer: body` block
(`core/runner.py`, lines 226–272).  `__enter__` samples the baseline and
starts the monitor; the body runs (terminating normally or with an
exception); Python's `with` statement runs `__exit__` on either exit
path, which records the elapsed time, stops the monitor exactly once,
and reads its peak.  `readResult` marks the earliest point at which the
caller can observe `timer.result`, i.e. after the block has exited. -/
def withInProcessTimer (env : InProcessEnv) (outcome : BodyOutcome) :
    InProcessTimerResult × List TimerEvent :=
  let result : InProcessTimerResult :=
    { elapsed_seconds := env.duration
      peak_memory_mb := monitorPeak env.memSamples
      baseline_memory_mb := env.baseline }
  match outcome with
  | BodyOutcome.normal =>
    (result, [TimerEvent.monitorStart, TimerEvent.bodyRun,
              TimerEvent.monitorStop, TimerEvent.readResult])
  | BodyOutcome.raised =>
    (result, [TimerEvent.monitorStart, TimerEvent.bodyRaise,
              TimerEvent.monitorStop, TimerEvent.readResult])

/-! ## Render settings — `models/settings.py`

`RenderSettings` is a pydantic model; only the `"timeout"` entry of its
open `extra` map is consulted by the embedded code, so that entry is
modelled as an explicit optional field. -/

structure RenderSettings where
  width : Int := 1920
  height : Int := 1080
  samples : Option Int := none
  time_budget : Option ℚ := none
  threads : Option Int := none
  gpu : Bool := false
  extraTimeout : Option ℚ := none
deriving Repr, DecidableEq

/-- Python truthiness of a `float | None` value: `None` and `0.0` are
falsy, every other number is truthy. -/
def truthyOptRat : Option ℚ → Bool
  | none => false
  | some x => decide (x ≠ 0)

/-- The timeout-resolution expression shared verbatim by the
subprocess-backed adapters (pbrt.py line 154, luxcore.py line 410,
cycles.py lines 293–295, appleseed.py line 174, ospray.py line 330):
`settings.time_budget if settings.time_budget else
settings.extra.get("timeout")`. -/
def resolveTimeout (s : RenderSettings) : Option ℚ :=
  if truthyOptRat s.time_budget then s.time_budget else s.extraTimeout

/-- Filament's timeout resolution (filament.py lines 183–185): the shared
expression followed by `if timeout is None: timeout = 60.0`. -/
def filamentResolveTimeout (s : RenderSettings) : Option ℚ :=
  match resolveTimeout s with
  | none => some 60
  | some t => some t

/-! ## Render results — `models/benchmark.py` and `RenderResultBuilder` -/

/-- Values stored in the open `metadata` map of a `RenderResult`. -/
inductive MetaVal where
  | str (v : String)
  | optStr (v : Option String)
  | int (v : Int)
  | bool (v : Bool)
  | optInt (v : Option Int)
  | rat (v : ℚ)
deriving Repr, DecidableEq

/-- `RenderResult` from `models/benchmark.py`: a pydantic `BaseModel`
whose config is only `ConfigDict(extra="ignore")`.  The hardware
snapshot is an external collaborator value and is modelled opaquely. -/
structure RenderResult where
  renderer : String
  scene : String
  output_path : String
  render_time_seconds : ℚ
  peak_memory_mb : ℚ
  settings : RenderSettings
  hardware : String
  timestamp : String
  metadata : List (String × MetaVal)
deriving Repr, DecidableEq

/-- The pydantic model configuration relevant to mutability.  pydantic
models reject attribute assignment only when `frozen=True` is set;
`models/benchmark.py` sets only `extra="ignore"`, so `frozen` keeps its
default `False`. -/
structure ModelConfig where
  frozen : Bool
  extra : String
deriving Repr, DecidableEq

/-- The config of `RenderResult`: `ConfigDict(extra="ignore")`, no
`frozen=True`. -/
def renderResultModelConfig : ModelConfig :=
  { frozen := false, extra := "ignore" }

/-- `SubprocessResult` in `core/runner.py` is declared
`@dataclass(frozen=True)`. -/
def subprocessResultFrozen : Bool := true

/-- Python attribute assignment `result.renderer = v` on a pydantic
model: raises (an error) when the model class is frozen, succeeds and
updates the field otherwise. -/
def RenderResult.setRenderer (cfg : ModelConfig) (r : RenderResult) (v : String) :
    Except String RenderResult :=
  if cfg.frozen then Except.error "ValidationError: instance is frozen"
  else Except.ok { r with renderer := v }

/-- Python attribute assignment `result.exit_code = v` on the frozen
dataclass `SubprocessResult`: a frozen dataclass raises
`FrozenInstanceError`. -/
def SubprocessResult.setExitCode (frozen : Bool) (r : SubprocessResult) (v : Int) :
    Except String SubprocessResult :=
  if frozen then Except.error "FrozenInstanceError"
  else Except.ok { r with exit_code := v }

/-- `RenderResultBuilder` from `core/runner.py` (lines 280–309): a plain
accumulator dataclass. -/
structure RenderResultBuilder where
  renderer : String := ""
  scene : String := ""
  output_path : String := ""
  render_time_seconds : ℚ := 0
  peak_memory_mb : ℚ := 0
  settings : RenderSettings := {}
  metadata : List (String × MetaVal) := []
deriving Repr, DecidableEq

/-- `RenderResultBuilder.build`: stamps the hardware snapshot obtained
from `detect_hardware()` and the current UTC timestamp (both external
collaborator values, passed as oracle arguments) and constructs a fresh
`RenderResult` from the builder's accumulated fields. -/
def RenderResultBuilder.build (b : RenderResultBuilder)
    (hardware timestamp : String) : RenderResult :=
  { renderer := b.renderer
    scene := b.scene
    output_path := b.output_path
    render_time_seconds := b.render_time_seconds
    peak_memory_mb := b.peak_memory_mb
    settings := b.settings
    hardware := hardware
    timestamp := timestamp
    metadata := b.metadata }

/-! ## Adapter registry — `core/registry.py`

An adapter class is modelled by the observable outcome of constructing
and probing it: whether its constructor raises when `detect_all` builds
a fresh instance, whether its `detect()` raises, and otherwise which
optional version string `detect()` returns. -/

structure AdapterSpec where
  name : String
  ctorRaises : Bool
  detectRaises : Bool
  detectVersion : Option String
deriving Repr, DecidableEq

/-- The body of `detect_all`'s `try` block for one adapter: construct an
instance and call `detect()`; any exception is swallowed and recorded as
`None` (not installed). -/
def probeAdapter (a : AdapterSpec) : Option String :=
  if a.ctorRaises || a.detectRaises then none else a.detectVersion

/-- Python `dict` assignment `d[k] = v` on an insertion-ordered
association list: overwriting an existing key keeps its position, a new
key is appended. -/
def dictSet (l : List (String × AdapterSpec)) (k : String) (v : AdapterSpec) :
    List (String × AdapterSpec) :=
  match l with
  | [] => [(k, v)]
  | (k0, v0) :: rest =>
    if k0 = k then (k, v) :: rest else (k0, v0) :: dictSet rest k v

/-- Python `dict` lookup `d.get(k)` on an association list. -/
def dictGet (l : List (String × Option String)) (k : String) :
    Option (Option String) :=
  match l with
  | [] => none
  | (k0, v) :: rest => if k0 = k then some v else dictGet rest k

/-- `AdapterRegistry` state (`core/registry.py`): the insertion-ordered
name → adapter-class mapping and the optional memoized detection
snapshot.  The registry is modelled after its one-time lazy bootstrap
(`_ensure_initialized`) has completed. -/
structure AdapterRegistry where
  adapters : List (String × AdapterSpec)
  detection_cache : Option (List (String × Option String))
deriving Repr, DecidableEq

/-- `AdapterRegistry.register` (lines 50–62): store the adapter class
under its instance's canonical name — overwriting silently when the name
already exists — and invalidate the detection cache. -/
def AdapterRegistry.register (r : AdapterRegistry) (a : AdapterSpec) :
    AdapterRegistry :=
  { adapters := dictSet r.adapters a.name a, detection_cache := none }

/-- `AdapterRegistry.clear_cache` (lines 133–135). -/
def AdapterRegistry.clear_cache (r : AdapterRegistry) : AdapterRegistry :=
  { r with detection_cache := none }

/-- Output of one `detect_all` call: the returned snapshot, the registry
state afterwards, and the names actually probed during the call (empty
when the memoized snapshot was returned). -/
structure DetectAllOut where
  snapshot : List (String × Option String)
  reg : AdapterRegistry
  probed : List String
deriving Repr, DecidableEq

/-- `AdapterRegistry.detect_all` (lines 100–126): return the cached
snapshot when present; otherwise probe every registered adapter
independently — recording `None` for any adapter whose construction or
`detect()` raises — and cache the resulting mapping. -/
def AdapterRegistry.detect_all (r : AdapterRegistry) : DetectAllOut :=
  match r.detection_cache with
  | some m => { snapshot := m, reg := r, probed := [] }
  | none =>
    let results := r.adapters.map (fun p => (p.1, probeAdapter p.2))
    { snapshot := results
      reg := { r with detection_cache := some results }
      probed := r.adapters.map (fun p => p.1) }

/-! ## Adapter render lifecycle — `adapters/pbrt.py`, `adapters/mitsuba.py`,
`adapters/luxcore.py`

`scene_path` and `output_path` are modelled by the string values the
adapters extract from them (`suffix`, `stem`, `str(...)`) plus
filesystem-oracle booleans for the existence checks. -/

/-- Python `s.lstrip(".")`: remove every leading dot. -/
def lstripDots (s : String) : String :=
  String.mk (s.toList.dropWhile (fun c => c = '.'))

/-- Observable events of one adapter `render()` call, in program order. -/
inductive AdEvent where
  | checkInstall
  | raiseNotFound
  | checkFormat
  | raiseFormat
  | checkSceneExists
  | mkdirOutput
  | dispatch
  | raiseRenderError
  | engineRaise
  | buildResult
deriving Repr, DecidableEq

/-! ### PBRT (`adapters/pbrt.py`) -/

def pbrtSupportedFormats : List String := ["pbrt"]

def pbrtInstallHint : String :=
  "git clone --recursive https://github.com/mmp/pbrt-v4\n" ++
  "  cd pbrt-v4 && cmake -B build && cmake --build build"

/-- Command construction in `PBRTAdapter.render` (lines 140–151). -/
def pbrtBuildCmd (binary outputPath scenePath : String)
    (s : RenderSettings) : List String :=
  [binary, "--outfile", outputPath]
    ++ (match s.samples with
        | some n => ["--spp", toString n]
        | none => [])
    ++ (match s.threads with
        | some n => ["--nthreads", toString n]
        | none => [])
    ++ (if s.gpu then ["--gpu"] else [])
    ++ [scenePath]

/-- Oracle for one `PBRTAdapter.render` call: the `_find_binary` result,
the scene path facts, the behaviour of the spawned pbrt process, the
output-file facts (including the `.exr`/`.png` candidate fallback), the
version `self.detect()` reports for the metadata, and the hardware
snapshot / timestamp stamped by the builder. -/
structure PBRTEnv where
  binary : Option String
  scenePathStr : String
  sceneSuffix : String
  sceneStem : String
  sceneExists : Bool
  proc : ProcSpec
  outputExists : Bool
  outputExrExists : Bool
  outputPngExists : Bool
  outputPathStr : String
  outputExrPathStr : String
  outputPngPathStr : String
  detectVersion : Option String
  hardware : String
  timestamp : String
deriving Repr, DecidableEq

/-- Shallow embedding of `PBRTAdapter.render` (`adapters/pbrt.py` lines
93–202): installation check, scene-format check on
`scene_path.suffix.lstrip(".")`, scene-existence check, command
construction, timeout resolution, subprocess dispatch, non-zero-exit and
missing-output failures, and result building.  The source creates no
output directory. -/
def PBRTAdapter.render (env : PBRTEnv) (settings : RenderSettings) :
    Except PyError RenderResult × List AdEvent :=
  match env.binary with
  | none =>
    (Except.error (PyError.rendererNotFound "PBRT v4" pbrtInstallHint),
     [AdEvent.checkInstall, AdEvent.raiseNotFound])
  | some binary =>
    let suffix := lstripDots env.sceneSuffix
    if suffix ≠ "pbrt" then
      (Except.error (PyError.sceneFormat "PBRT v4" env.scenePathStr suffix
          pbrtSupportedFormats),
       [AdEvent.checkInstall, AdEvent.checkFormat, AdEvent.raiseFormat])
    else if env.sceneExists = false then
      (Except.error (PyError.renderError "PBRT v4"
          ("Scene file not found: " ++ env.scenePathStr) none none),
       [AdEvent.checkInstall, AdEvent.checkFormat, AdEvent.checkSceneExists,
        AdEvent.raiseRenderError])
    else
      let cmd := pbrtBuildCmd binary env.outputPathStr env.scenePathStr settings
      let run := run_subprocess cmd (resolveTimeout settings) env.proc
      let pre := [AdEvent.checkInstall, AdEvent.checkFormat,
                  AdEvent.checkSceneExists, AdEvent.dispatch]
      match run.1 with
      | Except.error e => (Except.error e, pre ++ [AdEvent.engineRaise])
      | Except.ok result =>
        if result.exit_code ≠ 0 then
          (Except.error (PyError.renderError "PBRT v4" "Non-zero exit code"
              (some result.exit_code) (some result.stderr)),
           pre ++ [AdEvent.raiseRenderError])
        else
          let actualOutput : Option String :=
            if env.outputExists then some env.outputPathStr
            else if env.outputExrExists then some env.outputExrPathStr
            else if env.outputPngExists then some env.outputPngPathStr
            else none
          match actualOutput with
          | none =>
            (Except.error (PyError.renderError "PBRT v4"
                ("Output file was not created at " ++ env.outputPathStr)
                none (some result.stderr)),
             pre ++ [AdEvent.raiseRenderError])
          | some actual =>
            let builder : RenderResultBuilder :=
              { renderer := "pbrt"
                scene := env.sceneStem
                output_path := actual
                render_time_seconds := result.elapsed_seconds
                peak_memory_mb := result.peak_memory_mb
                settings := settings
                metadata := [("binary", MetaVal.str binary),
                             ("version", MetaVal.optStr env.detectVersion),
                             ("exit_code", MetaVal.int result.exit_code),
                             ("gpu_enabled", MetaVal.bool settings.gpu)] }
            (Except.ok (builder.build env.hardware env.timestamp),
             pre ++ [AdEvent.buildResult])

/-! ### Mitsuba 3 (`adapters/mitsuba.py`) -/

def mitsubaSupportedFormats : List String :=
  ["mitsuba_xml", "xml", "gltf", "obj", "ply", "stl"]

/-- The `_EXT_TO_FORMAT` lookup table of `adapters/mitsuba.py`. -/
def mitsubaExtToFormat (ext : String) : Option String :=
  if ext = ".xml" then some "mitsuba_xml"
  else if ext = ".gltf" then some "gltf"
  else if ext = ".glb" then some "gltf"
  else if ext = ".obj" then some "obj"
  else if ext = ".ply" then some "ply"
  else if ext = ".stl" then some "stl"
  else none

def mitsubaGpuVariants : List String :=
  ["cuda_ad_rgb", "cuda_rgb", "llvm_ad_rgb", "llvm_rgb"]

def mitsubaCpuVariants : List String :=
  ["llvm_ad_rgb", "llvm_rgb", "scalar_rgb"]

def mitsubaFallbackVariant : String := "scalar_rgb"

/-- `MitsubaAdapter._select_variant`: `available = none` models
`mi.variants()` raising. -/
def mitsubaSelectVariant (available : Option (List String)) (gpu : Bool) :
    String :=
  match available with
  | none => mitsubaFallbackVariant
  | some avail =>
    if avail.isEmpty then mitsubaFallbackVariant
    else
      let candidates := if gpu then mitsubaGpuVariants else mitsubaCpuVariants
      match candidates.find? (fun v => avail.contains v) with
      | some v => v
      | none =>
        if avail.contains mitsubaFallbackVariant then mitsubaFallbackVariant
        else avail.headD mitsubaFallbackVariant

/-- Oracle for one `MitsubaAdapter.render` call. -/
structure MitsubaEnv where
  version : Option String
  importOk : Bool
  scenePathStr : String
  sceneSuffix : String
  sceneStem : String
  sceneExists : Bool
  availableVariants : Option (List String)
  setVariantRaises : Bool
  loadRaises : Bool
  sceneLoadTime : ℚ
  timer : InProcessEnv
  renderRaises : Bool
  saveRaises : Bool
  outputExists : Bool
  outputPathStr : String
  hardware : String
  timestamp : String
deriving Repr, DecidableEq

/-- Shallow embedding of `MitsubaAdapter.render` (`adapters/mitsuba.py`
lines 102–230): installation check via `detect()`, scene-format check on
the lower-cased suffix, scene-existence check, import, variant
selection, scene load, the `InProcessTimer`-bracketed native render
call, and — only after the timed region — creation of the output
directory and saving of the bitmap. -/
def MitsubaAdapter.render (env : MitsubaEnv) (settings : RenderSettings) :
    Except PyError RenderResult × List AdEvent :=
  match env.version with
  | none =>
    (Except.error (PyError.rendererNotFound "Mitsuba 3" "pip install mitsuba"),
     [AdEvent.checkInstall, AdEvent.raiseNotFound])
  | some version =>
    let ext := env.sceneSuffix.toLower
    match mitsubaExtToFormat ext with
    | none =>
      (Except.error (PyError.sceneFormat "Mitsuba 3" env.scenePathStr
          (lstripDots ext) mitsubaSupportedFormats),
       [AdEvent.checkInstall, AdEvent.checkFormat, AdEvent.raiseFormat])
    | some _fmt =>
      if env.sceneExists = false then
        (Except.error (PyError.renderError "Mitsuba 3"
            ("Scene file not found: " ++ env.scenePathStr) none none),
         [AdEvent.checkInstall, AdEvent.checkFormat, AdEvent.checkSceneExists,
          AdEvent.raiseRenderError])
      else if env.importOk = false then
        (Except.error (PyError.rendererNotFound "Mitsuba 3" "pip install mitsuba"),
         [AdEvent.checkInstall, AdEvent.checkFormat, AdEvent.checkSceneExists,
          AdEvent.raiseNotFound])
      else
        let variant := mitsubaSelectVariant env.availableVariants settings.gpu
        let pre := [AdEvent.checkInstall, AdEvent.checkFormat,
                    AdEvent.checkSceneExists]
        if env.setVariantRaises then
          (Except.error (PyError.renderError "Mitsuba 3"
              ("Failed to set variant " ++ variant) none none),
           pre ++ [AdEvent.raiseRenderError])
        else if env.loadRaises then
          (Except.error (PyError.renderError "Mitsuba 3" "Failed to load scene"
              none none),
           pre ++ [AdEvent.raiseRenderError])
        else
          let outcome :=
            if env.renderRaises then BodyOutcome.raised else BodyOutcome.normal
          let timed := withInProcessTimer env.timer outcome
          if env.renderRaises then
            (Except.error (PyError.renderError "Mitsuba 3" "Render failed"
                none none),
             pre ++ [AdEvent.dispatch, AdEvent.raiseRenderError])
          else if env.saveRaises then
            (Except.error (PyError.renderError "Mitsuba 3" "Failed to save output"
                none none),
             pre ++ [AdEvent.dispatch, AdEvent.mkdirOutput,
                     AdEvent.raiseRenderError])
          else if env.outputExists = false then
            (Except.error (PyError.renderError "Mitsuba 3"
                ("Output file was not created at " ++ env.outputPathStr)
                none none),
             pre ++ [AdEvent.dispatch, AdEvent.mkdirOutput,
                     AdEvent.raiseRenderError])
          else
            let builder : RenderResultBuilder :=
              { renderer := "mitsuba3"
                scene := env.sceneStem
                output_path := env.outputPathStr
                render_time_seconds := timed.1.elapsed_seconds
                peak_memory_mb := timed.1.peak_memory_mb
                settings := settings
                metadata := [("version", MetaVal.str version),
                             ("variant", MetaVal.str variant),
                             ("scene_load_time_seconds",
                              MetaVal.rat env.sceneLoadTime),
                             ("baseline_memory_mb",
                              MetaVal.rat timed.1.baseline_memory_mb),
                             ("gpu_enabled", MetaVal.bool settings.gpu),
                             ("spp", MetaVal.optInt settings.samples)] }
            (Except.ok (builder.build env.hardware env.timestamp),
             pre ++ [AdEvent.dispatch, AdEvent.mkdirOutput,
                     AdEvent.buildResult])

/-! ### LuxCoreRender (`adapters/luxcore.py`) — the dual-path adapter -/

/-- `_IntegrationPath` from `adapters/luxcore.py`. -/
inductive IntegrationPath where
  | pythonApi
  | cli
deriving Repr, DecidableEq

def luxcoreSupportedFormats : List String := ["lxs", "cfg", "scn"]

/-- The `_EXT_TO_FORMAT` lookup table of `adapters/luxcore.py`. -/
def luxcoreExtToFormat (ext : String) : Option String :=
  if ext = ".lxs" then some "lxs"
  else if ext = ".cfg" then some "cfg"
  else if ext = ".scn" then some "scn"
  else none

def luxcoreInstallHint : String :=
  "pip install pyluxcore\n  or download from https://luxcorerender.org/download/"

/-- Engine selection in `_render_python_api`: on `gpu=True` the loop over
`_GPU_ENGINES` picks the first entry. -/
def luxcoreEngine (gpu : Bool) : String :=
  if gpu then "PATHOCL" else "PATHCPU"

/-- Python truthiness of an `int`. -/
def truthyInt (i : Int) : Bool := decide (i ≠ 0)

/-- Command construction in `LuxCoreAdapter._render_cli` (lines 398–408). -/
def luxcoreBuildCmd (binary scenePath outputPath : String)
    (s : RenderSettings) : List String :=
  [binary, "--scene", scenePath, "--film-output", outputPath]
    ++ (if truthyInt s.width && truthyInt s.height then
          ["--film-width", toString s.width, "--film-height", toString s.height]
        else [])
    ++ (match s.samples with
        | some n => ["--halt-spp", toString n]
        | none => [])
    ++ (match s.time_budget with
        | some t => ["--halt-time", toString (Rat.floor t)]
        | none => [])

/-- Oracle for one `LuxCoreAdapter.render` call: the detection facts for
both integration paths, the scene and output facts, and the behaviour of
whichever engine (in-process pyluxcore session or spawned
`luxcoreconsole`) ends up driving the render. -/
structure LuxCoreEnv where
  pyVersion : Option String
  cliBinary : Option String
  cliParsedVersion : Option String
  scenePathStr : String
  sceneSuffix : String
  sceneStem : String
  sceneExists : Bool
  sessionRaises : Bool
  apiTimer : InProcessEnv
  apiRenderRaises : Bool
  apiSaveRaises : Bool
  apiOutputExists : Bool
  proc : ProcSpec
  cliOutputExists : Bool
  outputPathStr : String
  hardware : String
  timestamp : String
deriving Repr, DecidableEq

/-- `LuxCoreAdapter.detect` (lines 95–121): try the `pyluxcore` import
first; fall back to the CLI binary, whose version parse failure yields
`"unknown"`; record which integration path was resolved. -/
def luxcoreDetect (env : LuxCoreEnv) : Option (String × IntegrationPath) :=
  match env.pyVersion with
  | some v => some (v, IntegrationPath.pythonApi)
  | none =>
    match env.cliBinary with
    | some _b => some (env.cliParsedVersion.getD "unknown", IntegrationPath.cli)
    | none => none

/-- `LuxCoreAdapter._render_python_api` (lines 259–372): build the
properties, create the render session (failures become `RenderError`),
drive the session inside an `InProcessTimer` region, save the film, and
check the output file.  The returned trace starts at the engine
dispatch. -/
def LuxCoreAdapter.renderApi (env : LuxCoreEnv) (settings : RenderSettings)
    (version : String) : Except PyError RenderResult × List AdEvent :=
  let engine := luxcoreEngine settings.gpu
  if env.sessionRaises then
    (Except.error (PyError.renderError "LuxCoreRender"
        "Failed to create render session" none none),
     [AdEvent.raiseRenderError])
  else
    let outcome :=
      if env.apiRenderRaises then BodyOutcome.raised else BodyOutcome.normal
    let timed := withInProcessTimer env.apiTimer outcome
    if env.apiRenderRaises then
      (Except.error (PyError.renderError "LuxCoreRender"
          "Render execution failed" none none),
       [AdEvent.dispatch, AdEvent.raiseRenderError])
    else if env.apiSaveRaises then
      (Except.error (PyError.renderError "LuxCoreRender"
          "Render execution failed" none none),
       [AdEvent.dispatch, AdEvent.raiseRenderError])
    else if env.apiOutputExists = false then
      (Except.error (PyError.renderError "LuxCoreRender"
          ("Output file was not created at " ++ env.outputPathStr) none none),
       [AdEvent.dispatch, AdEvent.raiseRenderError])
    else
      let builder : RenderResultBuilder :=
        { renderer := "luxcore"
          scene := env.sceneStem
          output_path := env.outputPathStr
          render_time_seconds := timed.1.elapsed_seconds
          peak_memory_mb := timed.1.peak_memory_mb
          settings := settings
          metadata := [("version", MetaVal.str version),
                       ("integration_path", MetaVal.str "python_api"),
                       ("engine", MetaVal.str engine),
                       ("gpu_enabled", MetaVal.bool settings.gpu),
                       ("baseline_memory_mb",
                        MetaVal.rat timed.1.baseline_memory_mb)] }
      (Except.ok (builder.build env.hardware env.timestamp),
       [AdEvent.dispatch, AdEvent.buildResult])

/-- `LuxCoreAdapter._render_cli` (lines 374–448): build the
`luxcoreconsole` command, resolve the timeout with the shared
expression, run the subprocess, and translate non-zero exit and missing
output into `RenderError`.  The returned trace starts at the engine
dispatch. -/
def LuxCoreAdapter.renderCli (env : LuxCoreEnv) (settings : RenderSettings)
    (version : String) : Except PyError RenderResult × List AdEvent :=
  let binary := env.cliBinary.getD "luxcoreconsole"
  let cmd := luxcoreBuildCmd binary env.scenePathStr env.outputPathStr settings
  let run := run_subprocess cmd (resolveTimeout settings) env.proc
  match run.1 with
  | Except.error e => (Except.error e, [AdEvent.dispatch, AdEvent.engineRaise])
  | Except.ok result =>
    if result.exit_code ≠ 0 then
      (Except.error (PyError.renderError "LuxCoreRender" "Non-zero exit code"
          (some result.exit_code) (some result.stderr)),
       [AdEvent.dispatch, AdEvent.raiseRenderError])
    else if env.cliOutputExists = false then
      (Except.error (PyError.renderError "LuxCoreRender"
          ("Output file was not created at " ++ env.outputPathStr)
          none (some result.stderr)),
       [AdEvent.dispatch, AdEvent.raiseRenderError])
    else
      let builder : RenderResultBuilder :=
        { renderer := "luxcore"
          scene := env.sceneStem
          output_path := env.outputPathStr
          render_time_seconds := result.elapsed_seconds
          peak_memory_mb := result.peak_memory_mb
          settings := settings
          metadata := [("version", MetaVal.str version),
                       ("binary", MetaVal.str binary),
                       ("integration_path", MetaVal.str "cli"),
                       ("exit_code", MetaVal.int result.exit_code),
                       ("gpu_enabled", MetaVal.bool settings.gpu)] }
      (Except.ok (builder.build env.hardware env.timestamp),
       [AdEvent.dispatch, AdEvent.buildResult])

/-- Shallow embedding of `LuxCoreAdapter.render` (`adapters/luxcore.py`
lines 126–180): installation check via the dual-path `detect()`,
scene-format check on the lower-cased suffix, scene-existence check,
creation of the output directory, then dispatch to the Python-API or CLI
engine according to the resolved integration path. -/
def LuxCoreAdapter.render (env : LuxCoreEnv) (settings : RenderSettings) :
    Except PyError RenderResult × List AdEvent :=
  match luxcoreDetect env with
  | none =>
    (Except.error (PyError.rendererNotFound "LuxCoreRender" luxcoreInstallHint),
     [AdEvent.checkInstall, AdEvent.raiseNotFound])
  | some (version, path) =>
    let ext := env.sceneSuffix.toLower
    match luxcoreExtToFormat ext with
    | none =>
      (Except.error (PyError.sceneFormat "LuxCoreRender" env.scenePathStr
          (lstripDots ext) luxcoreSupportedFormats),
       [AdEvent.checkInstall, AdEvent.checkFormat, AdEvent.raiseFormat])
    | some _fmt =>
      if env.sceneExists = false then
        (Except.error (PyError.renderError "LuxCoreRender"
            ("Scene file not found: " ++ env.scenePathStr) none none),
         [AdEvent.checkInstall, AdEvent.checkFormat, AdEvent.checkSceneExists,
          AdEvent.raiseRenderError])
      else
        let pre := [AdEvent.checkInstall, AdEvent.checkFormat,
                    AdEvent.checkSceneExists, AdEvent.mkdirOutput]
        match path with
        | IntegrationPath.pythonApi =>
          let sub := LuxCoreAdapter.renderApi env settings version
          (sub.1, pre ++ sub.2)
        | IntegrationPath.cli =>
          let sub := LuxCoreAdapter.renderCli env settings version
          (sub.1, pre ++ sub.2)

/-! ## Helper lemmas -/

/-- The monitor's peak fold never drops below its accumulator. -/
theorem le_foldlPeak (l : List ℚ) (acc : ℚ) :
    acc ≤ l.foldl (fun peak mb => if mb > peak then mb else peak) acc := by
  induction l generalizing acc with
  | nil => simp
  | cons x xs ih =>
    simp only [List.foldl_cons]
    refine le_trans ?_ (ih _)
    by_cases h : x > acc
    · simp only [if_pos h]
      exact le_of_lt h
    · simp only [if_neg h]
      exact le_refl acc

/-- Every sample is dominated by the monitor's peak fold, whatever the
accumulator. -/
theorem mem_le_foldlPeak (l : List ℚ) (x : ℚ) (hx : x ∈ l) (acc : ℚ) :
    x ≤ l.foldl (fun peak mb => if mb > peak then mb else peak) acc := by
  induction l generalizing acc with
  | nil => cases hx
  | cons y ys ih =>
    rcases List.mem_cons.mp hx with h | h
    · subst h
      simp only [List.foldl_cons]
      refine le_trans ?_ (le_foldlPeak ys _)
      by_cases hgt : x > acc
      · simp only [if_pos hgt]
        exact le_refl x
      · simp only [if_neg hgt]
        exact le_of_not_lt hgt
    · simp only [List.foldl_cons]
      exact ih h _

/-- `monitorPeak` dominates every sample the monitor took. -/
theorem mem_le_monitorPeak (l : List ℚ) (x : ℚ) (hx : x ∈ l) :
    x ≤ monitorPeak l :=
  mem_le_foldlPeak l x hx 0

/-- After a `dict` assignment the key is present. -/
theorem mem_keys_dictSet (l : List (String × AdapterSpec)) (k : String)
    (v : AdapterSpec) : k ∈ (dictSet l k v).map Prod.fst := by
  induction l with
  | nil => simp [dictSet]
  | cons p rest ih =>
    obtain ⟨k0, v0⟩ := p
    by_cases h : k0 = k
    · simp [dictSet, h]
    · simp only [dictSet, if_neg h, List.map_cons, List.mem_cons]
      exact Or.inr ih

/-- Looking up a registered name in the freshly computed detection
snapshot yields exactly the probe outcome of its adapter, provided the
registry's names are unique (the registry's `dict` guarantees this). -/
theorem dictGet_map_probe (l : List (String × AdapterSpec))
    (hnd : (l.map Prod.fst).Nodup) (n : String) (a : AdapterSpec)
    (hmem : (n, a) ∈ l) :
    dictGet (l.map (fun p => (p.1, probeAdapter p.2))) n =
      some (probeAdapter a) := by
  induction l with
  | nil => cases hmem
  | cons p rest ih =>
    obtain ⟨k0, v0⟩ := p
    simp only [List.map_cons, List.nodup_cons] at hnd
    rcases List.mem_cons.mp hmem with h | h
    · obtain ⟨hn, ha⟩ := Prod.mk.injEq .. ▸ h
      subst hn
      subst ha
      simp [dictGet]
    · have hk : k0 ≠ n := by
        intro hkn
        subst hkn
        exact hnd.1 (by simpa using List.mem_map_of_mem Prod.fst h)
      simp only [List.map_cons, dictGet, if_neg hk]
      exact ih hnd.2 h

/-- Classification of `run_subprocess` outcomes: with the binary found
and no exceeded timeout it returns the process's result; every error is
either the not-found failure (binary missing) or the timeout
`RenderError`. -/
theorem run_subprocess_cases (cmd : List String) (t : Option ℚ) (p : ProcSpec) :
    (p.found = true →
      (∀ tv, t = some tv → p.duration ≤ tv) →
      (run_subprocess cmd t p).1 =
        Except.ok
          { exit_code := p.exitCode
            stdout := p.stdoutText
            stderr := p.stderrText
            elapsed_seconds := p.duration
            peak_memory_mb := monitorPeak p.memSamples }) ∧
    (p.found = false →
      (run_subprocess cmd t p).1 =
        Except.error
          (PyError.fileNotFound ("Command not found: " ++ cmd.headD ""))) ∧
    (∀ e, (run_subprocess cmd t p).1 = Except.error e →
      (p.found = false ∧ e.isFileNotFound = true) ∨
      (∃ tv, t = some tv ∧ tv < p.duration ∧ e.isRenderError = true)) := by
  refine ⟨?_, ?_, ?_⟩
  · intro hf hle
    rcases t with _ | tv
    · simp [run_subprocess, hf]
    · have hd : ¬ tv < p.duration := not_lt.mpr (hle tv rfl)
      simp [run_subprocess, hf, hd]
  · intro hf
    simp [run_subprocess, hf]
  · intro e he
    cases hf : p.found with
    | false =>
      left
      simp [run_subprocess, hf] at he
      refine ⟨rfl, ?_⟩
      rw [← he]
      rfl
    | true =>
      rcases t with _ | tv
      · simp [run_subprocess, hf] at he
      · by_cases hd : tv < p.duration
        · right
          refine ⟨tv, rfl, hd, ?_⟩
          simp [run_subprocess, hf, hd] at he
          rw [← he]
          rfl
        · simp [run_subprocess, hf, hd] at he

/-- A `RenderError` is part of the adapter-facing taxonomy. -/
theorem inTaxonomy_of_isRenderError (e : PyError) (h : e.isRenderError = true) :
    e.inTaxonomy = true := by
  cases e <;> simp [PyError.isRenderError] at h
  rfl

/-- Every `PBRTAdapter.render` trace is one of six literal event
sequences, one per exit path. -/
theorem pbrt_trace_cases (env : PBRTEnv) (s : RenderSettings) :
    (PBRTAdapter.render env s).2 =
        [AdEvent.checkInstall, AdEvent.raiseNotFound] ∨
    (PBRTAdapter.render env s).2 =
        [AdEvent.checkInstall, AdEvent.checkFormat, AdEvent.raiseFormat] ∨
    (PBRTAdapter.render env s).2 =
        [AdEvent.checkInstall, AdEvent.checkFormat, AdEvent.checkSceneExists,
         AdEvent.raiseRenderError] ∨
    (PBRTAdapter.render env s).2 =
        [AdEvent.checkInstall, AdEvent.checkFormat, AdEvent.checkSceneExists,
         AdEvent.dispatch, AdEvent.engineRaise] ∨
    (PBRTAdapter.render env s).2 =
        [AdEvent.checkInstall, AdEvent.checkFormat, AdEvent.checkSceneExists,
         AdEvent.dispatch, AdEvent.raiseRenderError] ∨
    (PBRTAdapter.render env s).2 =
        [AdEvent.checkInstall, AdEvent.checkFormat, AdEvent.checkSceneExists,
         AdEvent.dispatch, AdEvent.buildResult] := by
  unfold PBRTAdapter.render
  repeat' split
  all_goals simp
  all_goals repeat' split
  all_goals simp

/-- Every `MitsubaAdapter.render` trace is one of these literal event
sequences, one per exit path; the output directory is created only after
the dispatch into the timed native render call. -/
theorem mitsuba_trace_cases (env : MitsubaEnv) (s : RenderSettings) :
    (MitsubaAdapter.render env s).2 =
        [AdEvent.checkInstall, AdEvent.raiseNotFound] ∨
    (MitsubaAdapter.render env s).2 =
        [AdEvent.checkInstall, AdEvent.checkFormat, AdEvent.raiseFormat] ∨
    (MitsubaAdapter.render env s).2 =
        [AdEvent.checkInstall, AdEvent.checkFormat, AdEvent.checkSceneExists,
         AdEvent.raiseRenderError] ∨
    (MitsubaAdapter.render env s).2 =
        [AdEvent.checkInstall, AdEvent.checkFormat, AdEvent.checkSceneExists,
         AdEvent.raiseNotFound] ∨
    (MitsubaAdapter.render env s).2 =
        [AdEvent.checkInstall, AdEvent.checkFormat, AdEvent.checkSceneExists,
         AdEvent.dispatch, AdEvent.raiseRenderError] ∨
    (MitsubaAdapter.render env s).2 =
        [AdEvent.checkInstall, AdEvent.checkFormat, AdEvent.checkSceneExists,
         AdEvent.dispatch, AdEvent.mkdirOutput, AdEvent.raiseRenderError] ∨
    (MitsubaAdapter.render env s).2 =
        [AdEvent.checkInstall, AdEvent.checkFormat, AdEvent.checkSceneExists,
         AdEvent.dispatch, AdEvent.mkdirOutput, AdEvent.buildResult] := by
  unfold MitsubaAdapter.render
  repeat' split
  all_goals simp
  all_goals repeat' split
  all_goals simp

/-- Every `LuxCoreAdapter.render` trace is one of these literal event
sequences; on every path that reaches the engine, the output directory
is created before the dispatch. -/
theorem luxcore_trace_cases (env : LuxCoreEnv) (s : RenderSettings) :
    (LuxCoreAdapter.render env s).2 =
        [AdEvent.checkInstall, AdEvent.raiseNotFound] ∨
    (LuxCoreAdapter.render env s).2 =
        [AdEvent.checkInstall, AdEvent.checkFormat, AdEvent.raiseFormat] ∨
    (LuxCoreAdapter.render env s).2 =
        [AdEvent.checkInstall, AdEvent.checkFormat, AdEvent.checkSceneExists,
         AdEvent.raiseRenderError] ∨
    (LuxCoreAdapter.render env s).2 =
        [AdEvent.checkInstall, AdEvent.checkFormat, AdEvent.checkSceneExists,
         AdEvent.mkdirOutput, AdEvent.raiseRenderError] ∨
    (LuxCoreAdapter.render env s).2 =
        [AdEvent.checkInstall, AdEvent.checkFormat, AdEvent.checkSceneExists,
         AdEvent.mkdirOutput, AdEvent.dispatch, AdEvent.raiseRenderError] ∨
    (LuxCoreAdapter.render env s).2 =
        [AdEvent.checkInstall, AdEvent.checkFormat, AdEvent.checkSceneExists,
         AdEvent.mkdirOutput, AdEvent.dispatch, AdEvent.engineRaise] ∨
    (LuxCoreAdapter.render env s).2 =
        [AdEvent.checkInstall, AdEvent.checkFormat, AdEvent.checkSceneExists,
         AdEvent.mkdirOutput, AdEvent.dispatch, AdEvent.buildResult] := by
  unfold LuxCoreAdapter.render LuxCoreAdapter.renderApi LuxCoreAdapter.renderCli
  repeat' split
  all_goals simp
  all_goals repeat' split
  all_goals simp

/-- When the spawn of the render subprocess succeeds (the binary located
by `_find_binary` is still spawnable), every failure of
`PBRTAdapter.render` is an adapter-facing taxonomy error. -/
theorem pbrt_error_cases (env : PBRTEnv) (s : RenderSettings) (e : PyError)
    (hf : env.proc.found = true)
    (he : (PBRTAdapter.render env s).1 = Except.error e) :
    e.inTaxonomy = true := by
  rcases hb : env.binary with _ | b
  · simp [PBRTAdapter.render, hb] at he
    rw [← he]
    rfl
  · by_cases hfmt : lstripDots env.sceneSuffix ≠ "pbrt"
    · simp [PBRTAdapter.render, hb, hfmt] at he
      rw [← he]
      rfl
    · by_cases hex : env.sceneExists = false
      · simp [PBRTAdapter.render, hb, hfmt, hex] at he
        rw [← he]
        rfl
      · cases hrun : (run_subprocess
            (pbrtBuildCmd b env.outputPathStr env.scenePathStr s)
            (resolveTimeout s) env.proc).1 with
        | error e0 =>
          simp [PBRTAdapter.render, hb, hfmt, hex, hrun] at he
          subst he
          rcases (run_subprocess_cases
              (pbrtBuildCmd b env.outputPathStr env.scenePathStr s)
              (resolveTimeout s) env.proc).2.2 e0 hrun with ⟨hff, _⟩ | ⟨_, _, _, hre⟩
          · rw [hf] at hff
            cases hff
          · exact inTaxonomy_of_isRenderError _ hre
        | ok r0 =>
          by_cases hec : r0.exit_code ≠ 0
          · simp [PBRTAdapter.render, hb, hfmt, hex, hrun, hec] at he
            rw [← he]
            rfl
          · by_cases h1 : env.outputExists <;> by_cases h2 : env.outputExrExists <;>
              by_cases h3 : env.outputPngExists <;>
              simp [PBRTAdapter.render, hb, hfmt, hex, hrun, hec, h1, h2, h3] at he <;>
              (rw [← he]; rfl)

/-- Same taxonomy property for `LuxCoreAdapter.render` on both
integration paths. -/
theorem luxcore_error_cases (env : LuxCoreEnv) (s : RenderSettings)
    (e : PyError) (hf : env.proc.found = true)
    (he : (LuxCoreAdapter.render env s).1 = Except.error e) :
    e.inTaxonomy = true := by
  have hcli : ∀ version,
      (LuxCoreAdapter.renderCli env s version).1 = Except.error e →
      e.inTaxonomy = true := by
    intro version hce
    cases hrun : (run_subprocess
        (luxcoreBuildCmd (env.cliBinary.getD "luxcoreconsole") env.scenePathStr
          env.outputPathStr s)
        (resolveTimeout s) env.proc).1 with
    | error e0 =>
      simp [LuxCoreAdapter.renderCli, hrun] at hce
      subst hce
      rcases (run_subprocess_cases
          (luxcoreBuildCmd (env.cliBinary.getD "luxcoreconsole") env.scenePathStr
            env.outputPathStr s)
          (resolveTimeout s) env.proc).2.2 e0 hrun with ⟨hff, _⟩ | ⟨_, _, _, hre⟩
      · rw [hf] at hff
        cases hff
      · exact inTaxonomy_of_isRenderError _ hre
    | ok r0 =>
      by_cases hec : r0.exit_code ≠ 0
      · simp [LuxCoreAdapter.renderCli, hrun, hec] at hce
        rw [← hce]
        rfl
      · by_cases ho : env.cliOutputExists = false <;>
          simp [LuxCoreAdapter.renderCli, hrun, hec, ho] at hce <;>
          (rw [← hce]; rfl)
  have hapi : ∀ version,
      (LuxCoreAdapter.renderApi env s version).1 = Except.error e →
      e.inTaxonomy = true := by
    intro version hae
    by_cases hs : env.sessionRaises <;>
      by_cases hr : env.apiRenderRaises <;>
      by_cases hsv : env.apiSaveRaises <;>
      by_cases hoe : env.apiOutputExists = false <;>
      simp [LuxCoreAdapter.renderApi, hs, hr, hsv, hoe] at hae <;>
      (rw [← hae]; rfl)
  rcases hdet : luxcoreDetect env with _ | ⟨version, path⟩
  · simp [LuxCoreAdapter.render, hdet] at he
    rw [← he]
    rfl
  · by_cases hfmt2 : luxcoreExtToFormat env.sceneSuffix.toLower = none
    · simp [LuxCoreAdapter.render, hdet, hfmt2] at he
      rw [← he]
      rfl
    · rcases hfm : luxcoreExtToFormat env.sceneSuffix.toLower with _ | fmt
      · exact absurd hfm hfmt2
      · by_cases hex : env.sceneExists = false
        · simp [LuxCoreAdapter.render, hdet, hfm, hex] at he
          rw [← he]
          rfl
        · cases path with
          | pythonApi =>
            simp [LuxCoreAdapter.render, hdet, hfm, hex] at he
            exact hapi version he
          | cli =>
            simp [LuxCoreAdapter.render, hdet, hfm, hex] at he
            exact hcli version he

/-! ## Claim theorems -/

/-- C1: for every execution through either engine, the background memory
monitor is stopped before the elapsed-time and peak-memory values are
read by the caller, on every exit path — normal completion (any exit
code), timeout, or an exception raised inside the in-process bracketed
region — and the in-process wrapper stops the monitor exactly once
regardless of how the bracketed computation terminates. -/
theorem monitor_stop_discipline :
    (∀ (cmd : List String) (t : Option ℚ) (p : ProcSpec),
        firstPrecedes (run_subprocess cmd t p).2 RunEvent.monitorStop
          RunEvent.returnResult = true ∧
        firstPrecedes (run_subprocess cmd t p).2 RunEvent.monitorStop
          RunEvent.raiseTimeout = true) ∧
    (∀ (env : InProcessEnv) (oc : BodyOutcome),
        (withInProcessTimer env oc).2.count TimerEvent.monitorStop = 1 ∧
        firstPrecedes (withInProcessTimer env oc).2 TimerEvent.monitorStop
          TimerEvent.readResult = true) := by
  constructor
  · intro cmd t p
    cases hf : p.found with
    | false => constructor <;> simp [run_subprocess, hf, firstPrecedes]
    | true =>
      rcases t with _ | tv
      · constructor <;> simp [run_subprocess, hf, firstPrecedes]
      · by_cases hd : tv < p.duration <;>
          constructor <;> simp [run_subprocess, hf, hd, firstPrecedes]
  · intro env oc
    cases oc <;> constructor <;>
      simp [withInProcessTimer, firstPrecedes, List.count_cons, List.count_nil]

/-- C2: whenever the spawned process exits on its own (the binary is
found and there is no timeout, or it finishes within the timeout),
`run_subprocess` returns a `SubprocessResult` carrying exactly the
process's exit code — raising nothing even for a non-zero code — and
every error it can produce is either the timeout `RenderError` or the
not-found failure for an unlocatable binary. -/
theorem run_subprocess_exit_code_faithful :
    (∀ (cmd : List String) (t : Option ℚ) (p : ProcSpec),
        p.found = true →
        (∀ tv, t = some tv → p.duration ≤ tv) →
        (run_subprocess cmd t p).1 =
          Except.ok
            { exit_code := p.exitCode
              stdout := p.stdoutText
              stderr := p.stderrText
              elapsed_seconds := p.duration
              peak_memory_mb := monitorPeak p.memSamples }) ∧
    (∀ (cmd : List String) (t : Option ℚ) (p : ProcSpec) (e : PyError),
        (run_subprocess cmd t p).1 = Except.error e →
        (p.found = false ∧ e.isFileNotFound = true) ∨
        (∃ tv, t = some tv ∧ tv < p.duration ∧ e.isRenderError = true)) :=
  ⟨fun cmd t p hf hle => (run_subprocess_cases cmd t p).1 hf hle,
   fun cmd t p e he => (run_subprocess_cases cmd t p).2.2 e he⟩

/-- C2 witness: a process exiting with code 42 and no timeout yields a
result with exit code 42. -/
theorem run_subprocess_exit_code_faithful_case :
    (run_subprocess ["mybinary"] none
        { found := true, exitCode := 42, stdoutText := "", stderrText := "",
          duration := 1, killDelay := 0, memSamples := [] }).1 =
      Except.ok
        { exit_code := 42, stdout := "", stderr := "", elapsed_seconds := 1,
          peak_memory_mb := monitorPeak [] } :=
  run_subprocess_exit_code_faithful.1 ["mybinary"] none
    { found := true, exitCode := 42, stdoutText := "", stderrText := "",
      duration := 1, killDelay := 0, memSamples := [] } rfl
    (fun _tv htv => nomatch htv)

/-- C3: `detect_all` probes every registered adapter independently and
never propagates an adapter's exception: under the registry's unique-name
invariant, every registered adapter appears in the returned snapshot
with its probe outcome — `none` when its construction or `detect()`
raises, its reported version otherwise — and, concretely, with adapter A
returning `"4.0.0"` and adapter B raising, the snapshot is exactly
`A ↦ "4.0.0", B ↦ none`. -/
theorem detect_all_swallows_failures :
    (∀ (r : AdapterRegistry),
        r.detection_cache = none →
        (r.adapters.map Prod.fst).Nodup →
        ∀ (n : String) (a : AdapterSpec), (n, a) ∈ r.adapters →
          dictGet (r.detect_all).snapshot n =
            some (if a.ctorRaises || a.detectRaises then none
                  else a.detectVersion)) ∧
    ((AdapterRegistry.detect_all
        { adapters :=
            [("adapterA",
              { name := "adapterA", ctorRaises := false, detectRaises := false,
                detectVersion := some "4.0.0" }),
             ("adapterB",
              { name := "adapterB", ctorRaises := false, detectRaises := true,
                detectVersion := some "2.6" })],
          detection_cache := none }).snapshot =
      [("adapterA", some "4.0.0"), ("adapterB", (none : Option String))]) := by
  constructor
  · intro r hc hnd n a hmem
    have h := dictGet_map_probe r.adapters hnd n a hmem
    simp only [AdapterRegistry.detect_all, hc]
    simpa [probeAdapter] using h
  · rfl

/-- C3 witness: an adapter whose constructor raises during the probe is
recorded with value `none`. -/
theorem detect_all_swallows_failures_case :
    dictGet
      (AdapterRegistry.detect_all
        { adapters :=
            [("adapterC",
              { name := "adapterC", ctorRaises := true, detectRaises := false,
                detectVersion := some "1.0" })],
          detection_cache := none }).snapshot "adapterC" = some none :=
  detect_all_swallows_failures.1
    { adapters :=
        [("adapterC",
          { name := "adapterC", ctorRaises := true, detectRaises := false,
            detectVersion := some "1.0" })],
      detection_cache := none }
    rfl (by decide) "adapterC"
    { name := "adapterC", ctorRaises := true, detectRaises := false,
      detectVersion := some "1.0" }
    (by decide)

/-- C4: the detection snapshot is memoized and invalidated exactly by
registration: a second `detect_all` with no intervening `register` or
`clear_cache` returns the same mapping without probing any adapter and
leaves the registry unchanged, while any `register` call — including an
overwrite — clears the cache, after which the next `detect_all` computes
a snapshot whose keys are exactly the currently registered names,
including the newly registered one. -/
theorem detection_cache_memoization :
    (∀ (r : AdapterRegistry),
        ((r.detect_all).reg.detect_all).snapshot = (r.detect_all).snapshot ∧
        ((r.detect_all).reg.detect_all).probed = [] ∧
        ((r.detect_all).reg.detect_all).reg = (r.detect_all).reg) ∧
    (∀ (r : AdapterRegistry) (a : AdapterSpec),
        (r.register a).detection_cache = none ∧
        a.name ∈ ((r.register a).adapters.map Prod.fst) ∧
        ((r.register a).detect_all).snapshot.map Prod.fst =
          (r.register a).adapters.map Prod.fst) := by
  constructor
  · intro r
    rcases hc : r.detection_cache with _ | m <;>
      simp [AdapterRegistry.detect_all, hc]
  · intro r a
    refine ⟨rfl, mem_keys_dictSet r.adapters a.name a, ?_⟩
    simp [AdapterRegistry.detect_all, AdapterRegistry.register, List.map_map,
      Function.comp]

/-- C5: for each modelled adapter (PBRT, Mitsuba, LuxCore), when the
renderer is installed but the scene extension is not in the adapter's
supported-format table, `render` fails with `SceneFormatError` carrying
the offending extension and the full supported list, and the event trace
is exactly the three validation steps — so no subprocess is spawned, no
native-binding call is made, and the scene file's existence is never
checked. -/
theorem scene_format_guard :
    (∀ (env : PBRTEnv) (s : RenderSettings) (b : String),
        env.binary = some b →
        lstripDots env.sceneSuffix ≠ "pbrt" →
        (PBRTAdapter.render env s).1 =
          Except.error (PyError.sceneFormat "PBRT v4" env.scenePathStr
            (lstripDots env.sceneSuffix) pbrtSupportedFormats) ∧
        (PBRTAdapter.render env s).2 =
          [AdEvent.checkInstall, AdEvent.checkFormat, AdEvent.raiseFormat]) ∧
    (∀ (env : MitsubaEnv) (s : RenderSettings) (v : String),
        env.version = some v →
        mitsubaExtToFormat env.sceneSuffix.toLower = none →
        (MitsubaAdapter.render env s).1 =
          Except.error (PyError.sceneFormat "Mitsuba 3" env.scenePathStr
            (lstripDots env.sceneSuffix.toLower) mitsubaSupportedFormats) ∧
        (MitsubaAdapter.render env s).2 =
          [AdEvent.checkInstall, AdEvent.checkFormat, AdEvent.raiseFormat]) ∧
    (∀ (env : LuxCoreEnv) (s : RenderSettings) (v : String)
        (path : IntegrationPath),
        luxcoreDetect env = some (v, path) →
        luxcoreExtToFormat env.sceneSuffix.toLower = none →
        (LuxCoreAdapter.render env s).1 =
          Except.error (PyError.sceneFormat "LuxCoreRender" env.scenePathStr
            (lstripDots env.sceneSuffix.toLower) luxcoreSupportedFormats) ∧
        (LuxCoreAdapter.render env s).2 =
          [AdEvent.checkInstall, AdEvent.checkFormat, AdEvent.raiseFormat]) := by
  refine ⟨?_, ?_, ?_⟩
  · intro env s b hb hfmt
    constructor <;> simp [PBRTAdapter.render, hb, hfmt]
  · intro env s v hv hfmt
    constructor <;> simp [MitsubaAdapter.render, hv, hfmt]
  · intro env s v path hdet hfmt
    constructor <;> simp [LuxCoreAdapter.render, hdet, hfmt]

/-- C5 witness: PBRT installed, scene extension `.png` — the call fails
with `SceneFormatError` carrying `png` and the supported list. -/
theorem scene_format_guard_case :
    (PBRTAdapter.render
        { binary := some "pbrt", scenePathStr := "scene.png",
          sceneSuffix := ".png", sceneStem := "scene", sceneExists := true,
          proc := { found := true, exitCode := 0, stdoutText := "",
                    stderrText := "", duration := 1, killDelay := 0,
                    memSamples := [] },
          outputExists := true, outputExrExists := false,
          outputPngExists := false, outputPathStr := "out.exr",
          outputExrPathStr := "out.exr", outputPngPathStr := "out.png",
          detectVersion := some "4.0.0", hardware := "hw",
          timestamp := "2026-01-01" } {}).1 =
      Except.error (PyError.sceneFormat "PBRT v4" "scene.png" "png"
        pbrtSupportedFormats) :=
  (scene_format_guard.1
    { binary := some "pbrt", scenePathStr := "scene.png",
      sceneSuffix := ".png", sceneStem := "scene", sceneExists := true,
      proc := { found := true, exitCode := 0, stdoutText := "",
                stderrText := "", duration := 1, killDelay := 0,
                memSamples := [] },
      outputExists := true, outputExrExists := false,
      outputPngExists := false, outputPathStr := "out.exr",
      outputExrPathStr := "out.exr", outputPngPathStr := "out.png",
      detectVersion := some "4.0.0", hardware := "hw",
      timestamp := "2026-01-01" } {} "pbrt" rfl (by decide)).1

/-- C6 counterexample: a fully valid PBRT render call (binary found,
`.pbrt` scene that exists, clean exit, output produced) dispatches to the
execution engine without ever ensuring the output directory exists —
`PBRTAdapter.render` performs no directory creation on any path. -/
theorem pbrt_render_never_mkdir_case :
    ((PBRTAdapter.render
        { binary := some "pbrt", scenePathStr := "scene.pbrt",
          sceneSuffix := ".pbrt", sceneStem := "scene", sceneExists := true,
          proc := { found := true, exitCode := 0, stdoutText := "",
                    stderrText := "", duration := 1, killDelay := 0,
                    memSamples := [] },
          outputExists := true, outputExrExists := false,
          outputPngExists := false, outputPathStr := "out.exr",
          outputExrPathStr := "out.exr", outputPngPathStr := "out.png",
          detectVersion := some "4.0.0", hardware := "hw",
          timestamp := "2026-01-01" } {}).2.contains AdEvent.dispatch = true) ∧
    ((PBRTAdapter.render
        { binary := some "pbrt", scenePathStr := "scene.pbrt",
          sceneSuffix := ".pbrt", sceneStem := "scene", sceneExists := true,
          proc := { found := true, exitCode := 0, stdoutText := "",
                    stderrText := "", duration := 1, killDelay := 0,
                    memSamples := [] },
          outputExists := true, outputExrExists := false,
          outputPngExists := false, outputPathStr := "out.exr",
          outputExrPathStr := "out.exr", outputPngPathStr := "out.png",
          detectVersion := some "4.0.0", hardware := "hw",
          timestamp := "2026-01-01" } {}).2.contains AdEvent.mkdirOutput =
      false) := by
  constructor <;> rfl

/-- C6 (amended): output-directory creation is not uniform across
adapters — PBRT never creates the output directory on any exit path;
LuxCore creates it before dispatching to either execution engine (every
dispatch in its trace is preceded by the directory creation); Mitsuba
creates it only after the timed native render call (every directory
creation in its trace is preceded by the dispatch). -/
theorem output_dir_creation_varies :
    (∀ (env : PBRTEnv) (s : RenderSettings),
        (PBRTAdapter.render env s).2.contains AdEvent.mkdirOutput = false) ∧
    (∀ (env : LuxCoreEnv) (s : RenderSettings),
        firstPrecedes (LuxCoreAdapter.render env s).2 AdEvent.mkdirOutput
          AdEvent.dispatch = true) ∧
    (∀ (env : MitsubaEnv) (s : RenderSettings),
        firstPrecedes (MitsubaAdapter.render env s).2 AdEvent.dispatch
          AdEvent.mkdirOutput = true) := by
  refine ⟨fun env s => ?_, fun env s => ?_, fun env s => ?_⟩
  · rcases pbrt_trace_cases env s with h | h | h | h | h | h <;>
      rw [h] <;> rfl
  · rcases luxcore_trace_cases env s with h | h | h | h | h | h | h <;>
      rw [h] <;> rfl
  · rcases mitsuba_trace_cases env s with h | h | h | h | h | h | h <;>
      rw [h] <;> rfl

/-- C7: an unlocatable command binary makes `run_subprocess` fail with
the distinct not-found error — it can never return a (zero-exit or any
other) result in that case — and at the adapter level (PBRT and LuxCore
modelled) every process-level failure, kill-on-timeout included, is
surfaced as one of the three adapter-facing taxonomy errors rather than
escaping as some other exception, provided the binary the adapter
located is still spawnable. -/
theorem process_failures_translated :
    (∀ (cmd : List String) (t : Option ℚ) (p : ProcSpec),
        p.found = false →
        (run_subprocess cmd t p).1 =
          Except.error
            (PyError.fileNotFound ("Command not found: " ++ cmd.headD ""))) ∧
    (∀ (cmd : List String) (t : Option ℚ) (p : ProcSpec)
        (r : SubprocessResult),
        (run_subprocess cmd t p).1 = Except.ok r → p.found = true) ∧
    (∀ (env : PBRTEnv) (s : RenderSettings) (e : PyError),
        env.proc.found = true →
        (PBRTAdapter.render env s).1 = Except.error e →
        e.inTaxonomy = true) ∧
    (∀ (env : LuxCoreEnv) (s : RenderSettings) (e : PyError),
        env.proc.found = true →
        (LuxCoreAdapter.render env s).1 = Except.error e →
        e.inTaxonomy = true) := by
  refine ⟨fun cmd t p hf => (run_subprocess_cases cmd t p).2.1 hf, ?_,
          fun env s e hf he => pbrt_error_cases env s e hf he,
          fun env s e hf he => luxcore_error_cases env s e hf he⟩
  intro cmd t p r hok
  cases hfv : p.found with
  | true => rfl
  | false =>
    rw [(run_subprocess_cases cmd t p).2.1 hfv] at hok
    cases hok

/-- C7 witness: a PBRT render call against a missing scene file (binary
found and spawnable) fails inside the taxonomy. -/
theorem process_failures_translated_case :
    (PyError.renderError "PBRT v4"
        ("Scene file not found: " ++ "missing.pbrt") none none).inTaxonomy =
      true :=
  process_failures_translated.2.2.1
    { binary := some "pbrt", scenePathStr := "missing.pbrt",
      sceneSuffix := ".pbrt", sceneStem := "missing", sceneExists := false,
      proc := { found := true, exitCode := 0, stdoutText := "",
                stderrText := "", duration := 1, killDelay := 0,
                memSamples := [] },
      outputExists := false, outputExrExists := false,
      outputPngExists := false, outputPathStr := "out.exr",
      outputExrPathStr := "out.exr", outputPngPathStr := "out.png",
      detectVersion := some "4.0.0", hardware := "hw",
      timestamp := "2026-01-01" } {}
    (PyError.renderError "PBRT v4"
      ("Scene file not found: " ++ "missing.pbrt") none none)
    rfl rfl

/-- C8 counterexample: a no-op bracketed region whose monitor is stopped
before its first poll (a legal schedule — the poll loop checks the stop
event first) reports `peak_memory_mb = 0`, strictly below the recorded
baseline, so `peak ≥ baseline` does not hold for every region. -/
theorem inprocess_peak_below_baseline_case :
    (withInProcessTimer { baseline := 50, duration := 0, memSamples := [] }
        BodyOutcome.normal).1.peak_memory_mb <
      (withInProcessTimer { baseline := 50, duration := 0, memSamples := [] }
        BodyOutcome.normal).1.baseline_memory_mb := by
  show (0 : ℚ) < 50
  norm_num

/-- C8 (amended): after context exit the in-process timer result always
has `elapsed_seconds ≥ 0` (the clock is monotone), and
`peak_memory_mb ≥ baseline_memory_mb` holds whenever the monitor
completed at least one poll observing memory at or above the baseline;
when the monitor is stopped before any poll — possible for a no-op
region — the reported peak is `0`. -/
theorem inprocess_timer_bounds (env : InProcessEnv) (oc : BodyOutcome)
    (hdur : 0 ≤ env.duration)
    (hsample : ∃ x ∈ env.memSamples, env.baseline ≤ x) :
    0 ≤ (withInProcessTimer env oc).1.elapsed_seconds ∧
    (withInProcessTimer env oc).1.baseline_memory_mb ≤
      (withInProcessTimer env oc).1.peak_memory_mb := by
  obtain ⟨x, hx, hbx⟩ := hsample
  cases oc <;>
    exact ⟨hdur, le_trans hbx (mem_le_monitorPeak env.memSamples x hx)⟩

/-- C8 witness: a region of duration 1 whose monitor sampled 60 MB above
a 50 MB baseline satisfies both bounds. -/
theorem inprocess_timer_bounds_case :
    0 ≤ (withInProcessTimer ⟨50, 1, [60]⟩ BodyOutcome.normal).1.elapsed_seconds ∧
    (withInProcessTimer ⟨50, 1, [60]⟩
        BodyOutcome.normal).1.baseline_memory_mb ≤
      (withInProcessTimer ⟨50, 1, [60]⟩ BodyOutcome.normal).1.peak_memory_mb :=
  inprocess_timer_bounds ⟨50, 1, [60]⟩
    BodyOutcome.normal (by norm_num) ⟨60, by simp, by norm_num⟩

/-- C9 counterexample: `RenderResult` is a pydantic model without
`frozen=True`, so attribute assignment on a built result succeeds and
changes the field — the result type is not enforced-immutable. -/
theorem render_result_mutable_case :
    RenderResult.setRenderer renderResultModelConfig
        { renderer := "pbrt", scene := "cornell", output_path := "out.exr",
          render_time_seconds := 1, peak_memory_mb := 2, settings := {},
          hardware := "hw", timestamp := "2026-01-01", metadata := [] }
        "other" =
      Except.ok
        { renderer := "other", scene := "cornell", output_path := "out.exr",
          render_time_seconds := 1, peak_memory_mb := 2, settings := {},
          hardware := "hw", timestamp := "2026-01-01", metadata := [] } ∧
    ("other" : String) ≠ "pbrt" :=
  ⟨rfl, by decide⟩

/-- C9 (amended): the framework itself never mutates a built result —
`build()` returns a `RenderResult` freshly constructed from the
builder's accumulated fields with the hardware snapshot and timestamp
stamped at build time — but the `RenderResult` type is not
enforced-immutable (assignment on it succeeds and yields an updated
value), unlike the frozen `SubprocessResult` dataclass, whose
assignments always raise. -/
theorem render_result_builder_fresh :
    ∀ (b : RenderResultBuilder) (hw ts : String),
      (b.build hw ts).renderer = b.renderer ∧
      (b.build hw ts).scene = b.scene ∧
      (b.build hw ts).output_path = b.output_path ∧
      (b.build hw ts).render_time_seconds = b.render_time_seconds ∧
      (b.build hw ts).peak_memory_mb = b.peak_memory_mb ∧
      (b.build hw ts).settings = b.settings ∧
      (b.build hw ts).hardware = hw ∧
      (b.build hw ts).timestamp = ts ∧
      (b.build hw ts).metadata = b.metadata ∧
      (∀ v, RenderResult.setRenderer renderResultModelConfig (b.build hw ts) v =
          Except.ok { b.build hw ts with renderer := v }) ∧
      (∀ (r : SubprocessResult) (v : Int),
          SubprocessResult.setExitCode subprocessResultFrozen r v =
            Except.error "FrozenInstanceError") :=
  fun _b _hw _ts =>
    ⟨rfl, rfl, rfl, rfl, rfl, rfl, rfl, rfl, rfl, fun _v => rfl,
     fun _r _v => rfl⟩

/-- C10 counterexample: Filament is subprocess-backed, yet with a zero
(falsy) time budget and no `extra["timeout"]` its resolved timeout is
`60.0`, not `None` — the fall-through-to-`None` clause fails for it. -/
theorem filament_timeout_not_none_case :
    filamentResolveTimeout { time_budget := some 0 } = some 60 ∧
    (some (60 : ℚ) : Option ℚ) ≠ none :=
  ⟨rfl, by decide⟩

/-- C10 (amended): in the shared timeout resolution used by the
subprocess-backed adapters (PBRT, LuxCore CLI, Cycles, appleseed,
OSPRay CLI), any falsy time budget — `None` or `0` — falls through to
`extra["timeout"]` and otherwise to `None` (unlimited), so a zero time
budget never enforces an immediate timeout; Filament applies the same
expression but then replaces a missing timeout with a 60-second
default. -/
theorem timeout_resolution_falsy (s : RenderSettings)
    (h : truthyOptRat s.time_budget = false) :
    resolveTimeout s = s.extraTimeout ∧
    filamentResolveTimeout s =
      (match s.extraTimeout with
       | none => some 60
       | some t => some t) := by
  refine ⟨by simp [resolveTimeout, h], ?_⟩
  rcases hx : s.extraTimeout with _ | t <;>
    simp [filamentResolveTimeout, resolveTimeout, h, hx]

/-- C10 witness: a zero time budget with no `extra["timeout"]` resolves
to no limit in the shared expression and to the 60-second default in
Filament. -/
theorem timeout_resolution_falsy_case :
    resolveTimeout { time_budget := some 0 } = none ∧
    filamentResolveTimeout { time_budget := some 0 } = some 60 :=
  timeout_resolution_falsy { time_budget := some 0 } rfl

end Renderscope
